import Mathlib

/-! # The greeter service of `services/go-service`

A shallow embedding of the two Go programs of the repository:

* `server/main.go`: the handler `(*server).SayHello` and the server's `main`;
* `client/main.go`: the client's `main`.

Go strings are byte sequences, pointers are `Option` values (`none` is `nil`),
a Go result pair `(value, error)` is a pair of `Option`s, the standard logger
is an explicit list of the messages handed to it, and the calls a `main`
makes to the outside world (`net.Listen`, `grpc.Dial`, the RPC itself) are
answered by an environment passed as a parameter and recorded in a trace.
-/

namespace GoService

/-! ## Go values -/

/-- A Go `string`: an immutable sequence of bytes, not necessarily valid UTF-8. -/
abbrev GoString := List UInt8

/-- The bytes of a string literal of the source (Go source text is UTF-8). -/
def goString (s : String) : GoString := s.data.flatMap String.utf8EncodeChar

/-- A non-nil Go `error`: an interface value, seen through its method
`Error() string`. A nil `error` is `none : Option GoError`. -/
structure GoError where
  Error : GoString
deriving DecidableEq

/-! ## Package `fmt` and `log` -/

/-- An operand of a formatting call: the programs only format strings and errors. -/
inductive Operand where
  | str (s : GoString)
  | err (e : GoError)
deriving DecidableEq

/-- The default rendering of an operand under the verbs `%v` and `%s`: a
string is written as it is, an error through its `Error` method. -/
def Operand.text : Operand → GoString
  | Operand.str s => s
  | Operand.err e => e.Error

/-- The scanner behind `fmt.Sprintf`, for the verbs the programs use. The flag
says that the byte before was an unconsumed `%` (byte 37). After a `%`, the
verbs `v` (118) and `s` (115) consume the next operand and write its text
(`%!v(MISSING)` when none is left), a second `%` writes one `%`, and a format
that ends on a `%` writes `%!(NOVERB)`. Other verbs do not occur in the
programs and are copied as they stand. -/
def sprintfFrom : GoString → Bool → List Operand → GoString
  | [], pct, _ => if pct then goString "%!(NOVERB)" else []
  | c :: rest, pct, ops =>
    if pct then
      if c = 118 ∨ c = 115 then
        match ops with
        | o :: os => o.text ++ sprintfFrom rest false os
        | [] => goString "%!" ++ [c] ++ goString "(MISSING)" ++ sprintfFrom rest false []
      else if c = 37 then 37 :: sprintfFrom rest false ops
      else 37 :: c :: sprintfFrom rest false ops
    else if c = 37 then sprintfFrom rest true ops
    else c :: sprintfFrom rest false ops

/-- The function `fmt.Sprintf(format, operands...)`. -/
def Sprintf (format : GoString) (ops : List Operand) : GoString :=
  sprintfFrom format false ops

/-- The output of the standard logger: the messages handed to it, oldest
first. Each entry is the text produced by one logging call; the logger writes
it behind a timestamp header and ends it with a newline. -/
abbrev Log := List GoString

/-- The function `log.Printf(format, operands...)`: one message is appended. -/
def Printf (log : Log) (format : GoString) (ops : List Operand) : Log :=
  log ++ [Sprintf format ops]

/-! ## Package `context` and `time` -/

/-- The two errors a finished context reports. -/
inductive CtxErr where
  | Canceled
  | DeadlineExceeded
deriving DecidableEq

/-- A `context.Context`, by the way it was made: the background context, a
context derived from a parent with a timeout in nanoseconds, or a context
that is already done, with the error it reports. -/
inductive Context where
  | Background
  | WithTimeout (parent : Context) (timeout : Int)
  | Done (ctx : Context) (err : CtxErr)
deriving DecidableEq

/-- The constant `time.Second`: a `time.Duration` counts nanoseconds. -/
def Second : Int := 1000000000

/-! ## Package `proto` -/

namespace Pb

/-- Modelled from the spec: the request message of package `proto` (generated
code, not under src/): one field, the name, a string without any validation. -/
structure HelloRequest where
  Name : GoString
deriving DecidableEq

/-- Modelled from the spec: the reply message of package `proto` (generated
code, not under src/): one field, the message, a string. -/
structure HelloReply where
  Message : GoString
deriving DecidableEq

/-- Modelled from the spec: the accessor `(*HelloRequest).GetName` of package
`proto` (not under src/): it reads the name field; generated accessors answer
the empty string on a nil message. -/
def HelloRequest.GetName : Option HelloRequest → GoString
  | some x => x.Name
  | none => []

/-- Modelled from the spec: the accessor `(*HelloReply).GetMessage` of package
`proto` (not under src/): it reads the message field; generated accessors
answer the empty string on a nil message. -/
def HelloReply.GetMessage : Option HelloReply → GoString
  | some x => x.Message
  | none => []

/-- Modelled from the spec: the type `UnimplementedGreeterServer` of package
`proto` (not under src/), which the server embeds: it holds no data. -/
structure UnimplementedGreeterServer where
deriving DecidableEq

end Pb

/-! ## The server: `server/main.go` -/

namespace Server

/-- The type `server`, used to implement the Greeter service. -/
structure server where
  UnimplementedGreeterServer : Pb.UnimplementedGreeterServer
deriving DecidableEq

/-- What one call of `SayHello` leaves behind: the two values it returns, and
the state of everything it could have written to, namely the log, the server
value behind `s` and the request behind `in`. -/
structure SayHelloResult where
  reply : Option Pb.HelloReply
  err : Option GoError
  log : Log
  s : Option server
  in_ : Option Pb.HelloRequest
deriving DecidableEq

/-- The method `(s *server) SayHello(ctx, in)`: it logs the received name and
returns a fresh reply with a nil error. Neither `s` nor `ctx` is read, and
`in` is read through `GetName` only. -/
def server.SayHello (s : Option server) (_ctx : Context) (in_ : Option Pb.HelloRequest)
    (log : Log) : SayHelloResult :=
  let log1 := Printf log (goString "Received: %v") [Operand.str (Pb.HelloRequest.GetName in_)]
  { reply := some { Message := goString "Hello " ++ Pb.HelloRequest.GetName in_ }
    err := none
    log := log1
    s := s
    in_ := in_ }

/-- A `net.Listener`, by the network and address it is bound to. -/
structure Listener where
  network : GoString
  address : GoString
deriving DecidableEq

/-- How `(*grpc.Server).Serve` ends: it blocks for as long as the process
lives, or it returns, with an error or with nil. -/
inductive ServeOutcome where
  | blocks
  | returns (err : Option GoError)
deriving DecidableEq

/-- The world the server's `main` runs in: the answer of `net.Listen` and the
way `Serve` ends on the listener it is given. -/
structure Env where
  Listen : GoString → GoString → Option Listener × Option GoError
  Serve : Option Listener → ServeOutcome

/-- What the server's `main` does, in order. -/
inductive Event where
  | Listen (network address : GoString)
  | NewServer
  | RegisterGreeterServer (srv : Option server)
  | Log (text : GoString)
  | Serve (lis : Option Listener)
deriving DecidableEq

/-- One run of the server's `main`: its actions and its exit status, `none`
when the process never leaves `Serve`. -/
structure Run where
  trace : List Event
  status : Option Nat
deriving DecidableEq

/-- The server's `main`. A call of `log.Fatalf` logs its message and ends the
process with status 1; `log.Println` logs its operand followed by a newline;
a `main` that returns ends the process with status 0. -/
def main (env : Env) : Run :=
  -- Set up a listener on port 50051
  match env.Listen (goString "tcp") (goString ":50051") with
  | (_, some err) =>
    { trace := [Event.Listen (goString "tcp") (goString ":50051"),
                Event.Log (Sprintf (goString "Failed to listen: %v") [Operand.err err])]
      status := some 1 }
  | (lis, none) =>
    -- Create a new gRPC server
    let started :=
      [Event.Listen (goString "tcp") (goString ":50051"),
       Event.NewServer,
       Event.RegisterGreeterServer (some { UnimplementedGreeterServer := {} }),
       Event.Log (goString "gRPC server is running on port 50051\n"),
       Event.Serve lis]
    match env.Serve lis with
    | ServeOutcome.blocks => { trace := started, status := none }
    | ServeOutcome.returns (some err) =>
      { trace := started ++ [Event.Log (Sprintf (goString "Failed to serve: %v") [Operand.err err])]
        status := some 1 }
    | ServeOutcome.returns none => { trace := started, status := some 0 }

end Server

/-! ## The client: `client/main.go` -/

namespace Client

/-- A `grpc.DialOption`; the client passes `grpc.WithInsecure()` only. -/
inductive DialOption where
  | WithInsecure
deriving DecidableEq

/-- A `grpc.ClientConn`, by the target it was dialled for. -/
structure ClientConn where
  target : GoString
deriving DecidableEq

/-- Modelled from the spec: the client stub of package `proto` (generated
code, not under src/), made by `NewGreeterClient` from a connection: the value
through which the greet call is issued. -/
structure GreeterClient where
  cc : Option ClientConn
deriving DecidableEq

/-- Modelled from the spec: the constructor `NewGreeterClient` of package
`proto` (not under src/): it wraps the connection. -/
def NewGreeterClient (cc : Option ClientConn) : GreeterClient := { cc := cc }

/-- The world the client's `main` runs in: the answer of `grpc.Dial` and the
answer of the stub's `SayHello`, that is, of the transport and the server
behind it. Both answer with a Go result pair. -/
structure Env where
  Dial : GoString → List DialOption → Option ClientConn × Option GoError
  SayHello : GreeterClient → Context → Option Pb.HelloRequest →
    Option Pb.HelloReply × Option GoError

/-- What the client's `main` does, in order. -/
inductive Event where
  | Dial (target : GoString) (opts : List DialOption)
  | SayHello (client : GreeterClient) (ctx : Context) (in_ : Option Pb.HelloRequest)
  | Log (text : GoString)
  | Cancel (ctx : Context)
  | Close (conn : Option ClientConn)
deriving DecidableEq

/-- One run of the client's `main`: its actions and its exit status. -/
structure Run where
  trace : List Event
  status : Nat
deriving DecidableEq

/-- The client's `main`. A call of `log.Fatalf` logs its message and ends the
process with status 1 without running the deferred calls; when `main` returns,
the deferred `cancel()` and `conn.Close()` run, last deferred first, and the
process ends with status 0. -/
def main (env : Env) : Run :=
  -- Connect to the server
  match env.Dial (goString "localhost:50051") [DialOption.WithInsecure] with
  | (_, some err) =>
    { trace := [Event.Dial (goString "localhost:50051") [DialOption.WithInsecure],
                Event.Log (Sprintf (goString "Did not connect: %v") [Operand.err err])]
      status := 1 }
  | (conn, none) =>
    -- Create a new Greeter client
    let client := NewGreeterClient conn
    -- Make a request
    let ctx := Context.WithTimeout Context.Background Second
    let request : Option Pb.HelloRequest := some { Name := goString "World" }
    let called :=
      [Event.Dial (goString "localhost:50051") [DialOption.WithInsecure],
       Event.SayHello client ctx request]
    match env.SayHello client ctx request with
    | (_, some err) =>
      { trace := called ++ [Event.Log (Sprintf (goString "Could not greet: %v") [Operand.err err])]
        status := 1 }
    | (response, none) =>
      { trace := called ++
          [Event.Log (Sprintf (goString "Greeting: %s")
              [Operand.str (Pb.HelloReply.GetMessage response)]),
           Event.Cancel ctx,
           Event.Close conn]
        status := 0 }

/-- The log of a run: the messages of its logging calls, in order. -/
def Run.log (r : Run) : Log :=
  r.trace.filterMap fun e => match e with
    | Event.Log text => some text
    | _ => none

/-- The greet calls of a run: the context and the request of each, in order. -/
def Run.calls (r : Run) : List (Context × Option Pb.HelloRequest) :=
  r.trace.filterMap fun e => match e with
    | Event.SayHello _ ctx in_ => some (ctx, in_)
    | _ => none

/-- A transport that delivers the request and the reply unchanged, in front of
the handler of the server: the dial answers with the connection `conn` and no
error, and the greet call runs `SayHello` of the server value `s` on the
request as sent, under the server-side context `sctx` and log `log`, and
answers with what the handler returns. -/
def Delivering (conn : Option ClientConn) (s : Option Server.server) (sctx : Context)
    (log : Log) : Env :=
  { Dial := fun _ _ => (conn, none)
    SayHello := fun _ _ in_ =>
      let r := Server.server.SayHello s sctx in_ log
      (r.reply, r.err) }

end Client

/-! ## Observations on runs, and sample environments -/

namespace Server

/-- The answer the environment gives to the one `net.Listen` call of `main`. -/
def Env.listened (env : Env) : Option Listener × Option GoError :=
  env.Listen (goString "tcp") (goString ":50051")

/-- The bind attempts of a run: network and address of each, in order. -/
def Run.binds (r : Run) : List (GoString × GoString) :=
  r.trace.filterMap fun e => match e with
    | Event.Listen network address => some (network, address)
    | _ => none

/-- An environment in which the port cannot be bound: "address already in use". -/
def busyEnv : Env :=
  { Listen := fun _ _ => (none, some { Error := goString "address already in use" })
    Serve := fun _ => ServeOutcome.blocks }

end Server

namespace Client

/-- The answer the environment gives to the one `grpc.Dial` call of `main`. -/
def Env.dialed (env : Env) : Option ClientConn × Option GoError :=
  env.Dial (goString "localhost:50051") [DialOption.WithInsecure]

/-- The answer the environment gives to the greet call `main` issues once the
dial has answered. -/
def Env.greeted (env : Env) : Option Pb.HelloReply × Option GoError :=
  env.SayHello (NewGreeterClient env.dialed.1)
    (Context.WithTimeout Context.Background Second) (some { Name := goString "World" })

/-- An environment in which the dial fails with "connection refused". -/
def refusingEnv : Env :=
  { Dial := fun _ _ => (none, some { Error := goString "connection refused" })
    SayHello := fun _ _ _ => (none, none) }

/-- An environment in which the dial succeeds and the greet call fails with
"context deadline exceeded". -/
def timingOutEnv : Env :=
  { Dial := fun target _ => (some { target := target }, none)
    SayHello := fun _ _ _ => (none, some { Error := goString "context deadline exceeded" }) }

/-- An environment in which the dial succeeds and the greet call answers with
the message "Hello World". -/
def answeringEnv : Env :=
  { Dial := fun target _ => (some { target := target }, none)
    SayHello := fun _ _ _ => (some { Message := goString "Hello World" }, none) }

end Client

/-! # Theorems -/

open Pb Server

/-! ## Lemmas on strings and formatting -/

theorem goString_append (a b : String) : goString (a ++ b) = goString a ++ goString b := by
  simp [goString]

theorem sprintfFrom_literal (lit rest : GoString) (ops : List Operand) (h : (37 : UInt8) ∉ lit) :
    sprintfFrom (lit ++ rest) false ops = lit ++ sprintfFrom rest false ops := by
  induction lit with
  | nil => rfl
  | cons c cs ih =>
    have hc : c ≠ 37 := fun e => h (by simp [e])
    have hcs : (37 : UInt8) ∉ cs := fun e => h (by simp [e])
    simp [sprintfFrom, hc, ih hcs]

theorem sprintfFrom_verb (o : Operand) :
    sprintfFrom [37, 118] false [o] = o.text ∧ sprintfFrom [37, 115] false [o] = o.text := by
  simp [sprintfFrom]

theorem Sprintf_v (lit : GoString) (o : Operand) (h : (37 : UInt8) ∉ lit) :
    Sprintf (lit ++ [37, 118]) [o] = lit ++ o.text := by
  rw [Sprintf, sprintfFrom_literal _ _ _ h, (sprintfFrom_verb o).1]

theorem Sprintf_s (lit : GoString) (o : Operand) (h : (37 : UInt8) ∉ lit) :
    Sprintf (lit ++ [37, 115]) [o] = lit ++ o.text := by
  rw [Sprintf, sprintfFrom_literal _ _ _ h, (sprintfFrom_verb o).2]

theorem Sprintf_Received (o : Operand) :
    Sprintf (goString "Received: %v") [o] = goString "Received: " ++ o.text := by
  have h : goString "Received: %v" = goString "Received: " ++ [37, 118] := by decide
  rw [h, Sprintf_v _ _ (by decide)]

theorem Sprintf_FailedToListen (o : Operand) :
    Sprintf (goString "Failed to listen: %v") [o] = goString "Failed to listen: " ++ o.text := by
  have h : goString "Failed to listen: %v" = goString "Failed to listen: " ++ [37, 118] := by
    decide
  rw [h, Sprintf_v _ _ (by decide)]

theorem Sprintf_DidNotConnect (o : Operand) :
    Sprintf (goString "Did not connect: %v") [o] = goString "Did not connect: " ++ o.text := by
  have h : goString "Did not connect: %v" = goString "Did not connect: " ++ [37, 118] := by
    decide
  rw [h, Sprintf_v _ _ (by decide)]

theorem Sprintf_CouldNotGreet (o : Operand) :
    Sprintf (goString "Could not greet: %v") [o] = goString "Could not greet: " ++ o.text := by
  have h : goString "Could not greet: %v" = goString "Could not greet: " ++ [37, 118] := by
    decide
  rw [h, Sprintf_v _ _ (by decide)]

theorem Sprintf_Greeting (o : Operand) :
    Sprintf (goString "Greeting: %s") [o] = goString "Greeting: " ++ o.text := by
  have h : goString "Greeting: %s" = goString "Greeting: " ++ [37, 115] := by decide
  rw [h, Sprintf_s _ _ (by decide)]

theorem length_goString_Hello : (goString "Hello ").length = 6 := by decide

/-! ## Lemmas on the client: the three runs of `main` -/

theorem Greeting_ne_DidNotConnect (t : GoString) :
    ¬ (goString "Greeting: " <+: goString "Did not connect: " ++ t) := by
  have h1 : goString "Greeting: " = 71 :: goString "reeting: " := by decide
  have h2 : goString "Did not connect: " = 68 :: goString "id not connect: " := by decide
  rw [h1, h2, List.cons_append, List.cons_prefix_cons]
  exact fun h => absurd h.1 (by decide)

theorem Greeting_ne_CouldNotGreet (t : GoString) :
    ¬ (goString "Greeting: " <+: goString "Could not greet: " ++ t) := by
  have h1 : goString "Greeting: " = 71 :: goString "reeting: " := by decide
  have h2 : goString "Could not greet: " = 67 :: goString "ould not greet: " := by decide
  rw [h1, h2, List.cons_append, List.cons_prefix_cons]
  exact fun h => absurd h.1 (by decide)

theorem Client_main_dial_failed (env : Client.Env) (e : GoError) (h : env.dialed.2 = some e) :
    Client.main env =
      { trace := [Client.Event.Dial (goString "localhost:50051") [Client.DialOption.WithInsecure],
                  Client.Event.Log (goString "Did not connect: " ++ e.Error)]
        status := 1 } := by
  unfold Client.Env.dialed at h
  rcases hd : env.Dial (goString "localhost:50051") [Client.DialOption.WithInsecure]
    with ⟨conn, err⟩
  rw [hd] at h
  simp only at h
  subst h
  simp only [Client.main, hd, Sprintf_DidNotConnect, Operand.text]

theorem Client_main_call_failed (env : Client.Env) (e : GoError) (hd : env.dialed.2 = none)
    (hc : env.greeted.2 = some e) :
    Client.main env =
      { trace := [Client.Event.Dial (goString "localhost:50051") [Client.DialOption.WithInsecure],
                  Client.Event.SayHello (Client.NewGreeterClient env.dialed.1)
                    (Context.WithTimeout Context.Background Second)
                    (some { Name := goString "World" }),
                  Client.Event.Log (goString "Could not greet: " ++ e.Error)]
        status := 1 } := by
  unfold Client.Env.greeted at hc
  unfold Client.Env.dialed at hd hc ⊢
  rcases hd1 : env.Dial (goString "localhost:50051") [Client.DialOption.WithInsecure]
    with ⟨conn, err⟩
  rw [hd1] at hd hc
  simp only at hd hc ⊢
  subst hd
  rcases hc1 : env.SayHello (Client.NewGreeterClient conn)
    (Context.WithTimeout Context.Background Second) (some { Name := goString "World" })
    with ⟨resp, err2⟩
  rw [hc1] at hc
  simp only at hc
  subst hc
  simp only [Client.main, hd1, hc1, Sprintf_CouldNotGreet, Operand.text, List.cons_append,
    List.nil_append]

theorem Client_main_succeeded (env : Client.Env) (hd : env.dialed.2 = none)
    (hc : env.greeted.2 = none) :
    Client.main env =
      { trace := [Client.Event.Dial (goString "localhost:50051") [Client.DialOption.WithInsecure],
                  Client.Event.SayHello (Client.NewGreeterClient env.dialed.1)
                    (Context.WithTimeout Context.Background Second)
                    (some { Name := goString "World" }),
                  Client.Event.Log (goString "Greeting: " ++ HelloReply.GetMessage env.greeted.1),
                  Client.Event.Cancel (Context.WithTimeout Context.Background Second),
                  Client.Event.Close env.dialed.1]
        status := 0 } := by
  unfold Client.Env.greeted at hc ⊢
  unfold Client.Env.dialed at hd hc ⊢
  rcases hd1 : env.Dial (goString "localhost:50051") [Client.DialOption.WithInsecure]
    with ⟨conn, err⟩
  rw [hd1] at hd hc
  simp only at hd hc ⊢
  subst hd
  rcases hc1 : env.SayHello (Client.NewGreeterClient conn)
    (Context.WithTimeout Context.Background Second) (some { Name := goString "World" })
    with ⟨resp, err2⟩
  rw [hc1] at hc
  simp only at hc
  subst hc
  simp only [Client.main, hd1, hc1, Sprintf_Greeting, Operand.text, List.cons_append,
    List.nil_append]

/-! ## Lemmas on the server: the runs of `main` -/

theorem Server_main_listen_failed (env : Server.Env) (e : GoError) (h : env.listened.2 = some e) :
    Server.main env =
      { trace := [Server.Event.Listen (goString "tcp") (goString ":50051"),
                  Server.Event.Log (goString "Failed to listen: " ++ e.Error)]
        status := some 1 } := by
  unfold Server.Env.listened at h
  rcases hl : env.Listen (goString "tcp") (goString ":50051") with ⟨lis, err⟩
  rw [hl] at h
  simp only at h
  subst h
  simp only [Server.main, hl, Sprintf_FailedToListen, Operand.text]

theorem Server_main_listening (env : Server.Env) (h : env.listened.2 = none) :
    ∃ logged : List GoString,
      (Server.main env).trace =
        [Server.Event.Listen (goString "tcp") (goString ":50051"),
         Server.Event.NewServer,
         Server.Event.RegisterGreeterServer (some { UnimplementedGreeterServer := {} }),
         Server.Event.Log (goString "gRPC server is running on port 50051\n"),
         Server.Event.Serve env.listened.1] ++ logged.map Server.Event.Log := by
  unfold Server.Env.listened at h ⊢
  rcases hl : env.Listen (goString "tcp") (goString ":50051") with ⟨lis, err⟩
  rw [hl] at h
  simp only at h ⊢
  subst h
  rcases hs : env.Serve lis with _ | _ | e
  · exact ⟨[], by simp only [Server.main, hl, hs]; rfl⟩
  · exact ⟨[], by simp only [Server.main, hl, hs]; rfl⟩
  · exact ⟨[Sprintf (goString "Failed to serve: %v") [Operand.err e]], by
      simp only [Server.main, hl, hs]; rfl⟩

/-! ## The handler -/

/-- C1: for every request, nil or not, the reply of `SayHello` carries the
message "Hello " followed by the request's name, byte for byte: so for a
request whose name field is `n` (any byte string), for a name given as text
(any Unicode string, in its UTF-8 encoding), for the name "World" (message
"Hello World") and for the empty name (message "Hello "). -/
theorem SayHello_message (s : Option server) (ctx : Context) (log : Log) :
    (∀ in_ : Option HelloRequest,
      (server.SayHello s ctx in_ log).reply
        = some { Message := goString "Hello " ++ HelloRequest.GetName in_ }) ∧
    (∀ n : GoString,
      HelloReply.GetMessage (server.SayHello s ctx (some { Name := n }) log).reply
        = goString "Hello " ++ n) ∧
    (∀ n : String,
      HelloReply.GetMessage (server.SayHello s ctx (some { Name := goString n }) log).reply
        = goString ("Hello " ++ n)) ∧
    HelloReply.GetMessage (server.SayHello s ctx (some { Name := goString "World" }) log).reply
      = goString "Hello World" ∧
    HelloReply.GetMessage (server.SayHello s ctx (some { Name := goString "" }) log).reply
      = goString "Hello " := by
  have hWorld : goString "Hello " ++ goString "World" = goString "Hello World" := by decide
  have hEmpty : goString "Hello " ++ goString "" = goString "Hello " := by decide
  refine ⟨fun _ => rfl, fun _ => rfl, fun n => ?_, hWorld, hEmpty⟩
  rw [goString_append]
  rfl

/-- C2: for every server value, context (an already cancelled or expired one
included), request and log, `SayHello` returns a nil error and a non-nil
reply. -/
theorem SayHello_no_error (s : Option server) (ctx : Context) (in_ : Option HelloRequest)
    (log : Log) :
    (server.SayHello s ctx in_ log).err = none ∧
    (server.SayHello s ctx in_ log).reply ≠ none ∧
    (∀ c : Context, ∀ e : CtxErr,
      (server.SayHello s (Context.Done c e) in_ log).err = none ∧
      (server.SayHello s (Context.Done c e) in_ log).reply ≠ none) := by
  refine ⟨rfl, ?_, fun _ _ => ⟨rfl, ?_⟩⟩ <;> simp [server.SayHello]

/-- C3: two calls of `SayHello` on requests with equal names return the same
reply and the same error, whatever the two server values, contexts and logs
(the log is all that earlier calls leave behind). -/
theorem SayHello_deterministic (s1 s2 : Option server) (ctx1 ctx2 : Context)
    (in1 in2 : Option HelloRequest) (log1 log2 : Log)
    (h : HelloRequest.GetName in1 = HelloRequest.GetName in2) :
    (server.SayHello s1 ctx1 in1 log1).reply = (server.SayHello s2 ctx2 in2 log2).reply ∧
    (server.SayHello s1 ctx1 in1 log1).err = (server.SayHello s2 ctx2 in2 log2).err := by
  simp [server.SayHello, h]

/-- Witness of C3: a nil request and a request with the empty name, sent to
different server values under different contexts and logs. -/
theorem SayHello_deterministic_witness :
    HelloRequest.GetName none = HelloRequest.GetName (some { Name := [] }) ∧
    (server.SayHello none Context.Background none []).reply
      = (server.SayHello (some { UnimplementedGreeterServer := {} })
          (Context.Done Context.Background CtxErr.Canceled) (some { Name := [] })
          [goString "Received: x"]).reply ∧
    (server.SayHello none Context.Background none []).err
      = (server.SayHello (some { UnimplementedGreeterServer := {} })
          (Context.Done Context.Background CtxErr.Canceled) (some { Name := [] })
          [goString "Received: x"]).err :=
  ⟨rfl, SayHello_deterministic none (some { UnimplementedGreeterServer := {} })
    Context.Background (Context.Done Context.Background CtxErr.Canceled) none
    (some { Name := [] }) [] [goString "Received: x"] rfl⟩

/-- C9: a call of `SayHello` appends exactly one message to the log, the text
"Received: " followed by the request's name, keeps the earlier messages, and
leaves the server value and the request as they were; the reply and the error
are the same under every other log. -/
theorem SayHello_frame (s : Option server) (ctx : Context) (in_ : Option HelloRequest)
    (log : Log) :
    (server.SayHello s ctx in_ log).log
      = log ++ [goString "Received: " ++ HelloRequest.GetName in_] ∧
    (server.SayHello s ctx in_ log).log.length = log.length + 1 ∧
    (server.SayHello s ctx in_ log).s = s ∧
    (server.SayHello s ctx in_ log).in_ = in_ ∧
    (∀ log2 : Log,
      (server.SayHello s ctx in_ log2).reply = (server.SayHello s ctx in_ log).reply ∧
      (server.SayHello s ctx in_ log2).err = (server.SayHello s ctx in_ log).err) := by
  have h : (server.SayHello s ctx in_ log).log
      = log ++ [goString "Received: " ++ HelloRequest.GetName in_] := by
    simp only [server.SayHello, Printf, Sprintf_Received, Operand.text]
  refine ⟨h, ?_, rfl, rfl, fun _ => ⟨rfl, rfl⟩⟩
  rw [h]; simp

/-- C10: the message determines the name. Two calls whose replies carry the
same message had requests with the same name; dropping the first six bytes of
a reply's message gives the request's name, and the message is six bytes
longer than the name. For a name given as text the same holds counted in
characters: the message is the encoding of "Hello " followed by the text,
which is the text after its first six characters and six characters longer. -/
theorem SayHello_injective (s1 s2 : Option server) (ctx1 ctx2 : Context) (log1 log2 : Log) :
    (∀ in1 in2 : Option HelloRequest,
      HelloReply.GetMessage (server.SayHello s1 ctx1 in1 log1).reply
        = HelloReply.GetMessage (server.SayHello s2 ctx2 in2 log2).reply →
      HelloRequest.GetName in1 = HelloRequest.GetName in2) ∧
    (∀ in_ : Option HelloRequest,
      (HelloReply.GetMessage (server.SayHello s1 ctx1 in_ log1).reply).drop 6
        = HelloRequest.GetName in_) ∧
    (∀ in_ : Option HelloRequest,
      (HelloReply.GetMessage (server.SayHello s1 ctx1 in_ log1).reply).length
        = (HelloRequest.GetName in_).length + 6) ∧
    (∀ n : String,
      HelloReply.GetMessage (server.SayHello s1 ctx1 (some { Name := goString n }) log1).reply
        = goString ("Hello " ++ n) ∧
      ("Hello " ++ n).drop 6 = n ∧
      ("Hello " ++ n).length = n.length + 6) := by
  refine ⟨fun in1 in2 h => ?_, fun _ => rfl, fun in_ => ?_, fun n => ⟨?_, ?_, ?_⟩⟩
  · exact List.append_cancel_left h
  · simp only [server.SayHello, HelloReply.GetMessage, List.length_append,
      length_goString_Hello]
    omega
  · rw [goString_append]; rfl
  · rw [String.drop_eq]
    apply String.ext
    simp
  · rw [String.length_append]
    have : "Hello ".length = 6 := by decide
    omega

/-- Witness of C10: two calls with the name "World", under different logs,
return the same message, and their names are equal. -/
theorem SayHello_injective_witness :
    Pb.HelloReply.GetMessage
        (Server.server.SayHello none Context.Background
          (some { Name := goString "World" }) []).reply
      = Pb.HelloReply.GetMessage
        (Server.server.SayHello none Context.Background
          (some { Name := goString "World" }) [goString "x"]).reply ∧
    Pb.HelloRequest.GetName (some { Name := goString "World" })
      = Pb.HelloRequest.GetName (some { Name := goString "World" }) :=
  ⟨rfl, (SayHello_injective none none Context.Background Context.Background [] [goString "x"]).1
    (some { Name := goString "World" }) (some { Name := goString "World" }) rfl⟩

/-! ## The runs of the client -/

/-- C4: the client's `main` ends with status 0 exactly when the dial and the
greet call both answer without an error. When the dial fails, `main` logs
"Did not connect: " with the error and ends with status 1 without issuing the
call; when the dial succeeds and the call fails, it logs "Could not greet: "
with the error and ends with status 1. In both cases that message is the last
thing `main` does and the whole log, and no message of the log starts with
"Greeting: ". -/
theorem Client_main_exit (env : Client.Env) :
    ((Client.main env).status = 0 ↔ env.dialed.2 = none ∧ env.greeted.2 = none) ∧
    (∀ e : GoError, env.dialed.2 = some e →
      Client.main env =
        { trace := [Client.Event.Dial (goString "localhost:50051")
                      [Client.DialOption.WithInsecure],
                    Client.Event.Log (goString "Did not connect: " ++ e.Error)]
          status := 1 } ∧
      (Client.main env).log = [goString "Did not connect: " ++ e.Error]) ∧
    (∀ e : GoError, env.dialed.2 = none → env.greeted.2 = some e →
      Client.main env =
        { trace := [Client.Event.Dial (goString "localhost:50051")
                      [Client.DialOption.WithInsecure],
                    Client.Event.SayHello (Client.NewGreeterClient env.dialed.1)
                      (Context.WithTimeout Context.Background Second)
                      (some { Name := goString "World" }),
                    Client.Event.Log (goString "Could not greet: " ++ e.Error)]
          status := 1 } ∧
      (Client.main env).log = [goString "Could not greet: " ++ e.Error]) ∧
    (env.dialed.2 ≠ none ∨ env.greeted.2 ≠ none →
      (Client.main env).status = 1 ∧
      ∀ l ∈ (Client.main env).log, ¬ (goString "Greeting: " <+: l)) := by
  have hA : ∀ e : GoError, env.dialed.2 = some e →
      (Client.main env).log = [goString "Did not connect: " ++ e.Error] := by
    intro e h
    rw [Client_main_dial_failed env e h]
    rfl
  have hB : ∀ e : GoError, env.dialed.2 = none → env.greeted.2 = some e →
      (Client.main env).log = [goString "Could not greet: " ++ e.Error] := by
    intro e hd hc
    rw [Client_main_call_failed env e hd hc]
    rfl
  refine ⟨?_, fun e h => ⟨Client_main_dial_failed env e h, hA e h⟩,
    fun e hd hc => ⟨Client_main_call_failed env e hd hc, hB e hd hc⟩, ?_⟩
  · rcases hd : env.dialed.2 with _ | e
    · rcases hc : env.greeted.2 with _ | e
      · rw [Client_main_succeeded env hd hc]
        simp
      · rw [Client_main_call_failed env e hd hc]
        simp
    · rw [Client_main_dial_failed env e hd]
      simp
  · intro h
    rcases hd : env.dialed.2 with _ | e
    · rcases hc : env.greeted.2 with _ | e
      · rcases h with h | h
        · exact absurd hd h
        · exact absurd hc h
      · refine ⟨by rw [Client_main_call_failed env e hd hc], ?_⟩
        intro l hl
        rw [hB e hd hc, List.mem_singleton] at hl
        rw [hl]
        exact Greeting_ne_CouldNotGreet _
    · refine ⟨by rw [Client_main_dial_failed env e hd], ?_⟩
      intro l hl
      rw [hA e hd, List.mem_singleton] at hl
      rw [hl]
      exact Greeting_ne_DidNotConnect _

/-- Witness of C4: when the dial is refused the run ends with status 1 after
the line "Did not connect: connection refused". -/
theorem Client_main_exit_witness :
    Client.refusingEnv.dialed.2 = some { Error := goString "connection refused" } ∧
    Client.main Client.refusingEnv =
      { trace := [Client.Event.Dial (goString "localhost:50051")
                    [Client.DialOption.WithInsecure],
                  Client.Event.Log (goString "Did not connect: connection refused")]
        status := 1 } :=
  ⟨rfl, by
    have h := ((Client_main_exit Client.refusingEnv).2.1
      { Error := goString "connection refused" } rfl).1
    have hs : goString "Did not connect: " ++ goString "connection refused"
        = goString "Did not connect: connection refused" := by decide
    rw [h, hs]⟩

/-- C5: when the dial and the greet call both answer without an error, the
log of the client's `main` is exactly one message, "Greeting: " followed by
the message of the reply: so for a reply that carries the message `m` the log
is the one line "Greeting: " followed by `m`, and there is no error line. -/
theorem Client_main_greeting (env : Client.Env) (hd : env.dialed.2 = none)
    (hc : env.greeted.2 = none) :
    (Client.main env).log = [goString "Greeting: " ++ HelloReply.GetMessage env.greeted.1] ∧
    (∀ m : GoString, env.greeted.1 = some { Message := m } →
      (Client.main env).log = [goString "Greeting: " ++ m]) ∧
    (Client.main env).log.length = 1 ∧
    (∀ l ∈ (Client.main env).log, goString "Greeting: " <+: l) := by
  have h : (Client.main env).log
      = [goString "Greeting: " ++ HelloReply.GetMessage env.greeted.1] := by
    rw [Client_main_succeeded env hd hc]
    rfl
  refine ⟨h, fun m hm => ?_, by rw [h]; rfl, fun l hl => ?_⟩
  · rw [h, hm]
    rfl
  · rw [h, List.mem_singleton] at hl
    rw [hl]
    exact List.prefix_append _ _

/-- Witness of C5: the reply "Hello World" is logged as "Greeting: Hello World". -/
theorem Client_main_greeting_witness :
    Client.answeringEnv.dialed.2 = none ∧ Client.answeringEnv.greeted.2 = none ∧
    (Client.main Client.answeringEnv).log = [goString "Greeting: Hello World"] :=
  ⟨rfl, rfl, by
    have h := (Client_main_greeting Client.answeringEnv rfl rfl).2.1
      (goString "Hello World") rfl
    have hs : goString "Greeting: " ++ goString "Hello World"
        = goString "Greeting: Hello World" := by decide
    rw [h, hs]⟩

/-- C6: over a transport that delivers the request and the reply unchanged to
and from the handler `SayHello`, whatever the connection, the server value,
the server-side context and the server's log, the client's `main` dials,
issues one call with the name "World", logs "Greeting: Hello World", runs its
deferred calls and ends with status 0; and in every environment each request
the client sends carries the name "World". -/
theorem Client_main_end_to_end (conn : Option Client.ClientConn) (s : Option Server.server)
    (sctx : Context) (log : Log) :
    Client.main (Client.Delivering conn s sctx log) =
      { trace := [Client.Event.Dial (goString "localhost:50051")
                    [Client.DialOption.WithInsecure],
                  Client.Event.SayHello (Client.NewGreeterClient conn)
                    (Context.WithTimeout Context.Background Second)
                    (some { Name := goString "World" }),
                  Client.Event.Log (goString "Greeting: Hello World"),
                  Client.Event.Cancel (Context.WithTimeout Context.Background Second),
                  Client.Event.Close conn]
        status := 0 } ∧
    (Client.main (Client.Delivering conn s sctx log)).log = [goString "Greeting: Hello World"] ∧
    (Client.main (Client.Delivering conn s sctx log)).status = 0 ∧
    (∀ env : Client.Env, ∀ c ∈ (Client.main env).calls,
      c.2 = some { Name := goString "World" }) := by
  have hs : goString "Greeting: " ++ (goString "Hello " ++ goString "World")
      = goString "Greeting: Hello World" := by decide
  have h := Client_main_succeeded (Client.Delivering conn s sctx log) rfl rfl
  have hm : HelloReply.GetMessage (Client.Delivering conn s sctx log).greeted.1
      = goString "Hello " ++ goString "World" := rfl
  rw [hm, hs] at h
  refine ⟨h, by rw [h]; rfl, by rw [h], fun env c hc => ?_⟩
  rcases hd : env.dialed.2 with _ | e
  · rcases hg : env.greeted.2 with _ | e
    · rw [Client_main_succeeded env hd hg] at hc
      simp [Client.Run.calls] at hc
      rw [hc]
    · rw [Client_main_call_failed env e hd hg] at hc
      simp [Client.Run.calls] at hc
      rw [hc]
  · rw [Client_main_dial_failed env e hd] at hc
    simp [Client.Run.calls] at hc

/-- C8: in every environment one run of the client's `main` issues at most one
greet call: none when the dial fails, exactly one when the dial succeeds,
also when that call fails. The one call carries the request with the name
"World" under a context derived from the background context with a timeout
of `time.Second`, which is 1000000000 nanoseconds. -/
theorem Client_main_calls (env : Client.Env) :
    (Client.main env).calls.length ≤ 1 ∧
    (env.dialed.2 = none →
      (Client.main env).calls
        = [(Context.WithTimeout Context.Background Second,
            some { Name := goString "World" })]) ∧
    (env.dialed.2 ≠ none → (Client.main env).calls = []) ∧
    (∀ e : GoError, env.dialed.2 = none → env.greeted.2 = some e →
      (Client.main env).calls.length = 1) ∧
    Second = 1000000000 := by
  have h1 : env.dialed.2 = none →
      (Client.main env).calls
        = [(Context.WithTimeout Context.Background Second,
            some { Name := goString "World" })] := by
    intro hd
    rcases hg : env.greeted.2 with _ | e
    · rw [Client_main_succeeded env hd hg]
      rfl
    · rw [Client_main_call_failed env e hd hg]
      rfl
  have h2 : env.dialed.2 ≠ none → (Client.main env).calls = [] := by
    intro hd
    rcases hd1 : env.dialed.2 with _ | e
    · exact absurd hd1 hd
    · rw [Client_main_dial_failed env e hd1]
      rfl
  refine ⟨?_, h1, h2, fun e hd _ => by rw [h1 hd]; rfl, rfl⟩
  by_cases hd : env.dialed.2 = none
  · rw [h1 hd]; simp
  · rw [h2 hd]; simp

/-- Witness of C8: a run whose call times out has issued exactly one call. -/
theorem Client_main_calls_witness :
    Client.timingOutEnv.dialed.2 = none ∧
    Client.timingOutEnv.greeted.2 = some { Error := goString "context deadline exceeded" } ∧
    (Client.main Client.timingOutEnv).calls.length = 1 :=
  ⟨rfl, rfl, (Client_main_calls Client.timingOutEnv).2.2.2.1
    { Error := goString "context deadline exceeded" } rfl rfl⟩

/-! ## The run of the server -/

/-- C7: when `net.Listen` on "tcp", ":50051" answers with an error, the
server's `main` logs "Failed to listen: " with the error and ends with status
1, having done nothing else: no gRPC server is created, no handler is
registered, `Serve` is not called. In every run there is exactly one bind
attempt, and creating the server, registering the handler and calling `Serve`
each happen exactly when the bind answered without an error; `Serve` is then
given the listener of the bind. -/
theorem Server_main_bind_fatal (env : Server.Env) :
    (∀ e : GoError, env.listened.2 = some e →
      Server.main env =
        { trace := [Server.Event.Listen (goString "tcp") (goString ":50051"),
                    Server.Event.Log (goString "Failed to listen: " ++ e.Error)]
          status := some 1 }) ∧
    (Server.main env).binds = [(goString "tcp", goString ":50051")] ∧
    (Server.Event.NewServer ∈ (Server.main env).trace ↔ env.listened.2 = none) ∧
    ((∃ srv, Server.Event.RegisterGreeterServer srv ∈ (Server.main env).trace)
      ↔ env.listened.2 = none) ∧
    ((∃ lis, Server.Event.Serve lis ∈ (Server.main env).trace) ↔ env.listened.2 = none) ∧
    (env.listened.2 = none → ∀ lis, Server.Event.Serve lis ∈ (Server.main env).trace →
      lis = env.listened.1) := by
  rcases hd : env.listened.2 with _ | e
  · obtain ⟨logged, ht⟩ := Server_main_listening env hd
    refine ⟨fun e h => by simp at h, ?_, ?_, ?_, ?_, ?_⟩
    · simp [Server.Run.binds, ht, List.filterMap_append, List.filterMap_map]
    · simp [ht]
    · simp [ht]
    · simp [ht]
    · intro _ lis hl
      simpa [ht] using hl
  · have ht := Server_main_listen_failed env e hd
    refine ⟨fun e2 h => ?_, ?_, ?_, ?_, ?_, ?_⟩
    · cases h
      exact ht
    · rw [ht]; rfl
    · simp [ht]
    · simp [ht]
    · simp [ht]
    · intro h
      simp at h

/-- Witness of C7: when the port is already in use the run is the bind
attempt and the fatal message, with status 1. -/
theorem Server_main_bind_fatal_witness :
    Server.busyEnv.listened.2 = some { Error := goString "address already in use" } ∧
    Server.main Server.busyEnv =
      { trace := [Server.Event.Listen (goString "tcp") (goString ":50051"),
                  Server.Event.Log (goString "Failed to listen: address already in use")]
        status := some 1 } :=
  ⟨rfl, by
    have h := (Server_main_bind_fatal Server.busyEnv).1
      { Error := goString "address already in use" } rfl
    have hs : goString "Failed to listen: " ++ goString "address already in use"
        = goString "Failed to listen: address already in use" := by decide
    rw [h, hs]⟩

end GoService
